import Mathlib

/-!
Verification of `craft_store/creds.py`: serialization and deserialization of
Candid and Ubuntu One SSO credentials.

The Python code is embedded shallowly:

* `Json` models the values produced by Python's `json.loads` applied to the
  inputs of interest.  Numbers are kept as their source lexeme (the code never
  computes with them; a numeric payload only flows into pydantic's string
  coercion, where the lexeme stands in for Python's `str(number)` rendering,
  and no theorem below observes that coerced value).
* `json_loads` is a fuel-based executable model of `json.loads` (Python's
  whitespace set, string escapes with surrogate-pair combination, strict
  rejection of raw control characters inside strings, `NaN`/`Infinity`
  constants, duplicate object keys resolved last-wins).  Escape sequences that
  denote lone surrogates are not representable as Lean `Char`s; the model
  rejects such inputs (no theorem below exercises them).
* `json_dumps` models `json.dumps` with its default separators: items joined
  by comma-space, keys and values joined by colon-space.
* `CandidModel.unmarshal` / `UbuntuOneModel.unmarshal` model `cls(**data)`
  under pydantic v1: population by field alias, extra keys ignored, `Literal`
  fields compared for equality, required `str` fields put through pydantic's
  string coercion, any field failure collected into a `ValidationError`;
  applying `**` to a non-mapping raises `TypeError` instead.
* `unmarshal_candid_credentials` / `unmarshal_u1_credentials` follow the
  source line by line, including the `TypeError` that Python's `"t" in creds`
  raises when the parsed JSON value is not a container.
-/

/-- Left curly bracket character (written via its code point throughout). -/
def lbrace : Char := Char.ofNat 123

/-- Right curly bracket character. -/
def rbrace : Char := Char.ofNat 125

/-- A value produced by `json.loads`.  Object members are kept in insertion
order; `num` carries the numeric lexeme as scanned from the input. -/
inductive Json where
  | null
  | bool (b : Bool)
  | num (lexeme : String)
  | str (s : String)
  | arr (elems : List Json)
  | obj (members : List (String × Json))

/-- Python `dict` assignment `d[k] = v` on an insertion-ordered association
list: an existing key keeps its position and gets the new value, a new key is
appended at the end. -/
def pyInsert {α : Type} : List (String × α) → String → α → List (String × α)
  | [], k, v => [(k, v)]
  | (k', v') :: rest, k, v =>
    if k' = k then (k, v) :: rest else (k', v') :: pyInsert rest k v

/-- Python `dict` lookup `d[k]` (`none` models `KeyError`).  `pyInsert` keeps
keys unique, so the first hit carries the current value. -/
def jlookup {α : Type} : List (String × α) → String → Option α
  | [], _ => none
  | (k', v) :: rest, k => if k' = k then some v else jlookup rest k

/-- The whitespace characters `json.loads` skips between tokens. -/
def isPyWs (c : Char) : Bool := c = ' ' || c = '\t' || c = '\n' || c = '\r'

/-- Drop leading JSON whitespace. -/
def skipWs : List Char → List Char
  | [] => []
  | c :: rest => if isPyWs c then skipWs rest else c :: rest

/-- Value of one hexadecimal digit. -/
def hexVal (c : Char) : Option Nat :=
  if '0' ≤ c ∧ c ≤ '9' then some (c.toNat - '0'.toNat)
  else if 'a' ≤ c ∧ c ≤ 'f' then some (c.toNat - 'a'.toNat + 10)
  else if 'A' ≤ c ∧ c ≤ 'F' then some (c.toNat - 'A'.toNat + 10)
  else none

/-- Value of a four-digit hexadecimal escape payload. -/
def hex4 (a b c d : Char) : Option Nat := do
  let va ← hexVal a
  let vb ← hexVal b
  let vc ← hexVal c
  let vd ← hexVal d
  pure (((va * 16 + vb) * 16 + vc) * 16 + vd)

/-- The single-character escapes `json.loads` accepts after a backslash. -/
def unescape1 (e : Char) : Option Char :=
  if e = '"' then some '"'
  else if e = '\\' then some '\\'
  else if e = '/' then some '/'
  else if e = 'b' then some (Char.ofNat 8)
  else if e = 'f' then some (Char.ofNat 12)
  else if e = 'n' then some '\n'
  else if e = 'r' then some '\r'
  else if e = 't' then some '\t'
  else none

/-- After a high surrogate `n`, a second `\uXXXX` escape must follow and
carry a low surrogate `m`; the pair combines into one code point.  A lone
surrogate is rejected here, since a Lean `Char` cannot hold it (Python would
keep it inside the `str`). -/
def decodeLowSurrogate (n : Nat) : List Char → Option (Char × List Char)
  | '\\' :: 'u' :: a2 :: b2 :: c3 :: d2 :: rest4 =>
    match hex4 a2 b2 c3 d2 with
    | none => none
    | some m =>
      if 0xDC00 ≤ m ∧ m ≤ 0xDFFF then
        some (Char.ofNat (0x10000 + (n - 0xD800) * 0x400 + (m - 0xDC00)), rest4)
      else none
  | _ => none

/-- Decode a `\uXXXX` escape given its four hex digits, entering the
surrogate-pair path when the value is a high surrogate. -/
def decodeU (a b c2 d : Char) (rest3 : List Char) : Option (Char × List Char) :=
  match hex4 a b c2 d with
  | none => none
  | some n =>
    if n < 0xD800 ∨ 0xDFFF < n then some (Char.ofNat n, rest3)
    else if n < 0xDC00 then decodeLowSurrogate n rest3
    else none

/-- Decode one escape sequence (the input begins after the backslash),
returning the decoded character and the remainder. -/
def decodeEscape : List Char → Option (Char × List Char)
  | [] => none
  | e :: rest2 =>
    if e = 'u' then
      match rest2 with
      | a :: b :: c2 :: d :: rest3 => decodeU a b c2 d rest3
      | _ => none
    else
      match unescape1 e with
      | some ch => some (ch, rest2)
      | none => none

/-- Scan a JSON string body after the opening quote, returning the decoded
characters and the remainder after the closing quote.  Raw control characters
are rejected (Python's default `strict=True`).  Each step consumes at least
one input character, so fuel equal to the input length plus one (what every
caller passes) never runs out before the scan resolves. -/
def parseStrBody : Nat → List Char → Option (List Char × List Char)
  | 0, _ => none
  | fuel + 1, l =>
    match l with
    | [] => none
    | c :: rest =>
      if c = '"' then some ([], rest)
      else if c = '\\' then
        match decodeEscape rest with
        | some (ch, rest2) =>
          match parseStrBody fuel rest2 with
          | some (cs, r) => some (ch :: cs, r)
          | none => none
        | none => none
      else if c.toNat < 32 then none
      else
        match parseStrBody fuel rest with
        | some (cs, r) => some (c :: cs, r)
        | none => none

/-- Longest run of decimal digits at the head of the input. -/
def digitsSpan : List Char → List Char × List Char
  | [] => ([], [])
  | c :: rest =>
    if c.isDigit then
      let (ds, r) := digitsSpan rest
      (c :: ds, r)
    else ([], c :: rest)

/-- The integer part of a JSON number: `0`, or a nonzero digit followed by
digits (leading zeros are rejected, as in the JSON grammar). -/
def scanIntPart : List Char → Option (List Char × List Char)
  | [] => none
  | c :: rest =>
    if c = '0' then some (['0'], rest)
    else if c.isDigit then
      let (ds, r) := digitsSpan rest
      some (c :: ds, r)
    else none

/-- The optional fraction part: a dot followed by at least one digit;
otherwise nothing is consumed. -/
def scanFrac : List Char → List Char × List Char
  | [] => ([], [])
  | c :: rest =>
    if c = '.' then
      match rest with
      | [] => ([], c :: rest)
      | d :: rest2 =>
        if d.isDigit then
          let (ds, r) := digitsSpan rest2
          (c :: d :: ds, r)
        else ([], c :: rest)
    else ([], c :: rest)

/-- The optional exponent part: `e` or `E`, an optional sign, and at least
one digit; otherwise nothing is consumed. -/
def scanExp : List Char → List Char × List Char
  | [] => ([], [])
  | c :: rest =>
    if c = 'e' ∨ c = 'E' then
      match rest with
      | [] => ([], c :: rest)
      | s :: rest2 =>
        if s = '+' ∨ s = '-' then
          match rest2 with
          | [] => ([], c :: rest)
          | d :: rest3 =>
            if d.isDigit then
              let (ds, r) := digitsSpan rest3
              (c :: s :: d :: ds, r)
            else ([], c :: rest)
        else if s.isDigit then
          let (ds, r) := digitsSpan rest2
          (c :: s :: ds, r)
        else ([], c :: rest)
    else ([], c :: rest)

/-- Scan a JSON number lexeme (`json.loads`'s `NUMBER_RE`), with its optional
leading minus sign. -/
def parseNumber (l : List Char) : Option (String × List Char) :=
  match l with
  | [] => none
  | c :: rest =>
    if c = '-' then
      match scanIntPart rest with
      | some (i, r1) =>
        let (f, r2) := scanFrac r1
        let (e, r3) := scanExp r2
        some (⟨'-' :: (i ++ f ++ e)⟩, r3)
      | none => none
    else
      match scanIntPart l with
      | some (i, r1) =>
        let (f, r2) := scanFrac r1
        let (e, r3) := scanExp r2
        some (⟨i ++ f ++ e⟩, r3)
      | none => none

/-- The member loop of the object scanner, entered only when the object is
not empty: repeatedly scan `"key": value`, then a comma-space-separated
continuation or the closing bracket.  `pv` parses one value (the value
scanner at one fuel step down); the loop's own fuel is initialized from the
remaining input length, which bounds the member count. -/
def membersLoop (pv : List Char → Option (Json × List Char)) :
    Nat → List Char → List (String × Json) → Option (Json × List Char)
  | 0, _, _ => none
  | fuel + 1, l, acc =>
    match l with
    | [] => none
    | c :: rest =>
      if c = '"' then
        match parseStrBody (rest.length + 1) rest with
        | none => none
        | some (kcs, r1) =>
          match skipWs r1 with
          | [] => none
          | c2 :: r2 =>
            if c2 = ':' then
              match pv (skipWs r2) with
              | none => none
              | some (v, r3) =>
                let acc2 := pyInsert acc ⟨kcs⟩ v
                match skipWs r3 with
                | [] => none
                | c3 :: r4 =>
                  if c3 = ',' then membersLoop pv fuel (skipWs r4) acc2
                  else if c3 = rbrace then some (Json.obj acc2, r4)
                  else none
            else none
      else none

/-- The element loop of the array scanner, entered only when the array is not
empty. -/
def elemsLoop (pv : List Char → Option (Json × List Char)) :
    Nat → List Char → List Json → Option (Json × List Char)
  | 0, _, _ => none
  | fuel + 1, l, acc =>
    match pv l with
    | none => none
    | some (v, r1) =>
      let acc2 := acc ++ [v]
      match skipWs r1 with
      | [] => none
      | c2 :: r2 =>
        if c2 = ',' then elemsLoop pv fuel (skipWs r2) acc2
        else if c2 = ']' then some (Json.arr acc2, r2)
        else none

/-- Strip an expected literal character sequence from the head of the input,
returning the remainder. -/
def stripLit : List Char → List Char → Option (List Char)
  | [], l => some l
  | _ :: _, [] => none
  | p :: ps, c :: cs => if c = p then stripLit ps cs else none

/-- Scan one JSON value.  The fuel bounds the nesting depth; `json_loads`
passes the input length, which every nesting level undercuts because each
opening bracket consumes a character. -/
def parseValue : Nat → List Char → Option (Json × List Char)
  | 0, _ => none
  | fuel + 1, l =>
    match l with
    | [] => none
    | c :: rest =>
      if c = '"' then
        match parseStrBody (rest.length + 1) rest with
        | some (cs, r) => some (Json.str ⟨cs⟩, r)
        | none => none
      else if c = lbrace then
        match skipWs rest with
        | [] => none
        | c2 :: r2 =>
          if c2 = rbrace then some (Json.obj [], r2)
          else membersLoop (parseValue fuel) ((c2 :: r2).length) (c2 :: r2) []
      else if c = '[' then
        match skipWs rest with
        | [] => none
        | c2 :: r2 =>
          if c2 = ']' then some (Json.arr [], r2)
          else elemsLoop (parseValue fuel) ((c2 :: r2).length) (c2 :: r2) []
      else if c = 't' then
        match stripLit ['r', 'u', 'e'] rest with
        | some r => some (Json.bool true, r)
        | none => none
      else if c = 'f' then
        match stripLit ['a', 'l', 's', 'e'] rest with
        | some r => some (Json.bool false, r)
        | none => none
      else if c = 'n' then
        match stripLit ['u', 'l', 'l'] rest with
        | some r => some (Json.null, r)
        | none => none
      else if c = 'N' then
        match stripLit ['a', 'N'] rest with
        | some r => some (Json.num "NaN", r)
        | none => none
      else if c = 'I' then
        match stripLit ['n', 'f', 'i', 'n', 'i', 't', 'y'] rest with
        | some r => some (Json.num "Infinity", r)
        | none => none
      else
        match parseNumber (c :: rest) with
        | some (lex, r) => some (Json.num lex, r)
        | none =>
          if c = '-' then
            match stripLit ['I', 'n', 'f', 'i', 'n', 'i', 't', 'y'] rest with
            | some r => some (Json.num "-Infinity", r)
            | none => none
          else none

/-- Model of `json.loads`: scan one value surrounded by optional whitespace;
anything left over is an error (`none`). -/
def json_loads (s : String) : Option Json :=
  match parseValue (s.data.length + 1) (skipWs s.data) with
  | some (j, rest) => if skipWs rest = [] then some j else none
  | none => none

/-- Escape one character the way `json.dumps` does with `ensure_ascii=False`:
quote and backslash get a backslash, the five short control escapes are used
where they exist, any other control character becomes a `\u00XX` escape with
lowercase hex digits, and everything else passes through.  (`ensure_ascii`
affects only how non-ASCII payload characters are spelled on the wire, not
which value round-trips; the strings in the claims are ASCII.) -/
def hexDig (n : Nat) : Char :=
  if n < 10 then Char.ofNat ('0'.toNat + n) else Char.ofNat ('a'.toNat + n - 10)

def escChar (c : Char) : List Char :=
  if c = '"' then ['\\', '"']
  else if c = '\\' then ['\\', '\\']
  else if c = '\n' then ['\\', 'n']
  else if c = '\t' then ['\\', 't']
  else if c = '\r' then ['\\', 'r']
  else if c = Char.ofNat 8 then ['\\', 'b']
  else if c = Char.ofNat 12 then ['\\', 'f']
  else if c.toNat < 32 then ['\\', 'u', '0', '0', hexDig (c.toNat / 16), hexDig (c.toNat % 16)]
  else [c]

/-- Escape a character run. -/
def escChars : List Char → List Char
  | [] => []
  | c :: cs => escChar c ++ escChars cs

/-- A dumped string literal: opening quote, escaped body, closing quote. -/
def dumpStr (s : String) : List Char := '"' :: (escChars s.data ++ ['"'])

mutual
/-- `json.dumps` with its default separators (comma-space between items,
colon-space between a key and its value), producing a character list. -/
def jdump : Json → List Char
  | .null => "null".data
  | .bool true => "true".data
  | .bool false => "false".data
  | .num lexeme => lexeme.data
  | .str s => dumpStr s
  | .arr xs => '[' :: (jdumpArr xs ++ [']'])
  | .obj kvs => lbrace :: (jdumpObj kvs ++ [rbrace])

/-- Array items joined by comma-space. -/
def jdumpArr : List Json → List Char
  | [] => []
  | [x] => jdump x
  | x :: rest => jdump x ++ ',' :: ' ' :: jdumpArr rest

/-- Object members `"key": value` joined by comma-space. -/
def jdumpObj : List (String × Json) → List Char
  | [] => []
  | [(k, v)] => dumpStr k ++ ':' :: ' ' :: jdump v
  | (k, v) :: rest => dumpStr k ++ ':' :: ' ' :: jdump v ++ ',' :: ' ' :: jdumpObj rest
end

/-- `json.dumps` as a string-valued function. -/
def json_dumps (j : Json) : String := ⟨jdump j⟩

/-- The dictionary `CandidModel(v=creds).marshal()` builds: pydantic's
`dict(by_alias=True)` walks the fields in declaration order, so the type tag
`t` (its `Literal` default `"macaroon"`) comes first and the payload `v`
second. -/
def CandidModel.marshalDict (value : String) : Json :=
  Json.obj [("t", Json.str "macaroon"), ("v", Json.str value)]

/-- `marshal_candid_credentials`: dump the tagged dictionary. -/
def marshal_candid_credentials (candid_creds : String) : String :=
  json_dumps (CandidModel.marshalDict candid_creds)

/-- Model of the set of macaroons used in Ubuntu SSO, with its two `str`
fields (aliases `r` and `d` on the wire). -/
structure UbuntuOneMacaroons where
  root : String
  discharge : String
deriving DecidableEq, Repr

/-- The dictionary `UbuntuOneModel(v=u1_creds).marshal()` builds: tag first,
then the nested pair dictionary in field order `r`, `d`. -/
def UbuntuOneModel.marshalDict (v : UbuntuOneMacaroons) : Json :=
  Json.obj [("t", Json.str "u1-macaroon"),
            ("v", Json.obj [("r", Json.str v.root), ("d", Json.str v.discharge)])]

/-- `marshal_u1_credentials`: dump the tagged dictionary. -/
def marshal_u1_credentials (u1_creds : UbuntuOneMacaroons) : String :=
  json_dumps (UbuntuOneModel.marshalDict u1_creds)

/-- How a field-level failure of `cls(**data)` surfaces in Python:
`validationError` for pydantic's `ValidationError` (which the source catches),
`typeError` for the `TypeError` Python raises when `data` is not a mapping
(which the source does not catch). -/
inductive ModelErr where
  | validationError
  | typeError
deriving DecidableEq

/-- pydantic v1 coercion for a required `str` field: a string passes through,
a number is rendered with `str` (modelled by its lexeme; no theorem below
observes the rendering), a boolean renders as `True`/`False` (a `bool` is an
`int` in Python), anything else is a `ValidationError`. -/
def str_validator : Json → Option String
  | .str s => some s
  | .num lexeme => some lexeme
  | .bool b => some (if b then "True" else "False")
  | _ => none

/-- `CandidModel.unmarshal(data)`, i.e. `cls(**data)` under pydantic v1:
`data` must be a mapping (else `TypeError`); fields populate by alias, extra
keys are ignored; the `Literal` tag `t` defaults to `"macaroon"` when absent
and must equal it when present (pydantic's literal validator is a lookup in
the dictionary of permitted values, so a non-string never matches); the
required payload `v` goes through the string coercion. -/
def CandidModel.unmarshal (data : Json) : Except ModelErr String :=
  match data with
  | .obj kvs =>
    let tagOk : Bool :=
      match jlookup kvs "t" with
      | none => true
      | some (Json.str s) => s = "macaroon"
      | some _ => false
    if tagOk then
      match jlookup kvs "v" with
      | some v =>
        match str_validator v with
        | some s => .ok s
        | none => .error .validationError
      | none => .error .validationError
    else .error .validationError
  | _ => .error .typeError

/-- The nested `UbuntuOneMacaroons` field validator: a mapping with required
string fields `r` and `d` (by alias, extras ignored); anything else fails
validation. -/
def u1macaroons_validator (v : Json) : Option UbuntuOneMacaroons :=
  match v with
  | .obj kvs =>
    match jlookup kvs "r", jlookup kvs "d" with
    | some rv, some dv =>
      match str_validator rv, str_validator dv with
      | some r, some d => some ⟨r, d⟩
      | _, _ => none
    | _, _ => none
  | _ => none

/-- `UbuntuOneModel.unmarshal(data)` under pydantic v1, with tag literal
`"u1-macaroon"` and the nested pair payload. -/
def UbuntuOneModel.unmarshal (data : Json) : Except ModelErr UbuntuOneMacaroons :=
  match data with
  | .obj kvs =>
    let tagOk : Bool :=
      match jlookup kvs "t" with
      | none => true
      | some (Json.str s) => s = "u1-macaroon"
      | some _ => false
    if tagOk then
      match jlookup kvs "v" with
      | some v =>
        match u1macaroons_validator v with
        | some m => .ok m
        | none => .error .validationError
      | none => .error .validationError
    else .error .validationError
  | _ => .error .typeError

/-- The errors the unmarshal functions can surface.  Modelled from the spec:
`errors.CredentialsNotParseable` (the module is outside `src/`) is an
exception carrying a human-readable message naming the expected credential
type.  `typeError` models Python's built-in `TypeError`, which the source
never catches. -/
inductive PyErr where
  | credentialsNotParseable (msg : String)
  | typeError
deriving DecidableEq, Repr

/-- Python's `"t" in creds`: key membership for a dict, element equality for
a list (only the string `"t"` can compare equal to `"t"`), substring test
for a str, and a `TypeError` for the non-container values a JSON document
can also hold (numbers, booleans, `None`). -/
def py_contains_t : Json → Except PyErr Bool
  | .obj kvs => .ok (kvs.any fun kv => kv.1 = "t")
  | .arr xs => .ok (xs.any fun x => match x with | .str s => s = "t" | _ => false)
  | .str s => .ok (s.contains 't')
  | .num _ => .error .typeError
  | .bool _ => .error .typeError
  | .null => .error .typeError

/-- `unmarshal_candid_credentials`, line by line: on a JSON decode error the
raw string becomes the payload of a fresh dict; on a parsed value containing
a tag key the parsed value itself becomes the keyword arguments; otherwise
the raw string again becomes the payload.  A `ValidationError` from the
model becomes `CredentialsNotParseable`; a `TypeError` (from `"t" in creds`
on a non-container, or from `cls(**data)` on a non-mapping) propagates. -/
def unmarshal_candid_credentials (marshalled_creds : String) : Except PyErr String :=
  let dataE : Except PyErr Json :=
    match json_loads marshalled_creds with
    | none => .ok (Json.obj [("v", Json.str marshalled_creds)])
    | some creds =>
      match py_contains_t creds with
      | .error e => .error e
      | .ok true => .ok creds
      | .ok false => .ok (Json.obj [("v", Json.str marshalled_creds)])
  match dataE with
  | .error e => .error e
  | .ok data =>
    match CandidModel.unmarshal data with
    | .ok v => .ok v
    | .error .validationError => .error (.credentialsNotParseable "Expected valid Candid credentials")
    | .error .typeError => .error .typeError

/-- `unmarshal_u1_credentials`, line by line: a JSON decode error is fatal;
a parsed value containing a tag key becomes the keyword arguments; otherwise
the parsed value (not the raw string, unlike the Candid codec) becomes the
payload of a fresh dict. -/
def unmarshal_u1_credentials (marshalled_creds : String) : Except PyErr UbuntuOneMacaroons :=
  let dataE : Except PyErr Json :=
    match json_loads marshalled_creds with
    | none => .error (.credentialsNotParseable "Expected valid Ubuntu One credentials")
    | some creds =>
      match py_contains_t creds with
      | .error e => .error e
      | .ok true => .ok creds
      | .ok false => .ok (Json.obj [("v", creds)])
  match dataE with
  | .error e => .error e
  | .ok data =>
    match UbuntuOneModel.unmarshal data with
    | .ok v => .ok v
    | .error .validationError => .error (.credentialsNotParseable "Expected valid Ubuntu One credentials")
    | .error .typeError => .error .typeError

/-- The pydantic v1 instance dictionary of an `UbuntuOneMacaroons`: attribute
values keyed by field name (not by alias). -/
def UbuntuOneMacaroons.instanceDict (m : UbuntuOneMacaroons) : List (String × String) :=
  [("root", m.root), ("discharge", m.discharge)]

/-- pydantic v1 `BaseModel.copy(update=u)`: the new instance dictionary is
the old one (field-name keys) merged with `u`'s entries verbatim — update
keys are not translated through aliases and not validated. -/
def pyCopyUpdate (dict : List (String × String)) (update : List (String × String)) :
    List (String × String) :=
  update.foldl (fun d kv => pyInsert d kv.1 kv.2) dict

/-- `UbuntuOneMacaroons.with_discharge`, i.e. the source's
`self.copy(update=...)` with the single update key `d`, modelled at the
instance-dictionary level: `d` is the wire alias, not a field name, so the
merge adds a stray `d` entry and the `discharge` field keeps its value. -/
def UbuntuOneMacaroons.with_discharge_dict (m : UbuntuOneMacaroons) (discharge : String) :
    List (String × String) :=
  pyCopyUpdate m.instanceDict [("d", discharge)]

/-- Attribute access on an instance dictionary. -/
def pyAttr (dict : List (String × String)) (name : String) : Option String :=
  jlookup dict name


/-! ## Inversion of the string escaping -/

theorem string_eta (s : String) : (⟨s.data⟩ : String) = s := rfl

theorem data_mk (l : List Char) : (⟨l⟩ : String).data = l := rfl

theorem hexVal_hexDig : ∀ x < 16, hexVal (hexDig x) = some x := by decide

theorem hex4_00 (x y : Nat) (hx : x < 16) (hy : y < 16) :
    hex4 '0' '0' (hexDig x) (hexDig y) = some (x * 16 + y) := by
  have h0 : hexVal '0' = some 0 := by decide
  simp [hex4, h0, hexVal_hexDig _ hx, hexVal_hexDig _ hy]

theorem decodeEscape_short (e ch : Char) (rest : List Char)
    (he : e ≠ 'u') (hu : unescape1 e = some ch) :
    decodeEscape (e :: rest) = some (ch, rest) := by
  simp [decodeEscape, he, hu]

theorem decodeEscape_hex (a b c2 d : Char) (n : Nat) (rest : List Char)
    (hn : n < 55296) (hx : hex4 a b c2 d = some n) :
    decodeEscape ('u' :: a :: b :: c2 :: d :: rest) = some (Char.ofNat n, rest) := by
  simp [decodeEscape, decodeU, hx, hn]

theorem psb_quote (f : Nat) (rest : List Char) :
    parseStrBody (f + 1) ('"' :: rest) = some ([], rest) := by
  simp [parseStrBody]

theorem psb_esc (f : Nat) (tail rest2 cs r : List Char) (ch : Char)
    (hd : decodeEscape tail = some (ch, rest2))
    (hrec : parseStrBody f rest2 = some (cs, r)) :
    parseStrBody (f + 1) ('\\' :: tail) = some (ch :: cs, r) := by
  simp [parseStrBody, hd, hrec]

theorem psb_plain (f : Nat) (c : Char) (rest cs r : List Char)
    (h1 : c ≠ '"') (h2 : c ≠ '\\') (h3 : ¬ c.toNat < 32)
    (hrec : parseStrBody f rest = some (cs, r)) :
    parseStrBody (f + 1) (c :: rest) = some (c :: cs, r) := by
  simp [parseStrBody, h1, h2, h3, hrec]

/-- Scanning an escaped character run recovers it and stops at the closing
quote, for any sufficient fuel. -/
theorem psb_escChars : ∀ (cs : List Char) (fuel : Nat) (rest : List Char),
    cs.length < fuel → parseStrBody fuel (escChars cs ++ '"' :: rest) = some (cs, rest) := by
  intro cs
  induction cs with
  | nil =>
    intro fuel rest hf
    match fuel, hf with
    | f + 1, _ => simpa [escChars] using psb_quote f rest
  | cons c cs ih =>
    intro fuel rest hf
    match fuel, hf with
    | f + 1, hf =>
      have hlen : cs.length < f := by simpa using Nat.lt_of_succ_lt_succ hf
      rw [escChars, List.append_assoc, escChar]
      split_ifs with h1 h2 h3 h4 h5 h6 h7 h8
      · subst h1
        exact psb_esc f _ _ _ _ _ (decodeEscape_short _ _ _ (by decide) (by decide)) (ih f rest hlen)
      · subst h2
        exact psb_esc f _ _ _ _ _ (decodeEscape_short _ _ _ (by decide) (by decide)) (ih f rest hlen)
      · subst h3
        exact psb_esc f _ _ _ _ _ (decodeEscape_short _ _ _ (by decide) (by decide)) (ih f rest hlen)
      · subst h4
        exact psb_esc f _ _ _ _ _ (decodeEscape_short _ _ _ (by decide) (by decide)) (ih f rest hlen)
      · subst h5
        exact psb_esc f _ _ _ _ _ (decodeEscape_short _ _ _ (by decide) (by decide)) (ih f rest hlen)
      · subst h6
        exact psb_esc f _ _ _ _ _ (decodeEscape_short _ _ _ (by decide) (by decide)) (ih f rest hlen)
      · subst h7
        exact psb_esc f _ _ _ _ _ (decodeEscape_short _ _ _ (by decide) (by decide)) (ih f rest hlen)
      · have hdiv : c.toNat / 16 < 16 := by omega
        have hmod : c.toNat % 16 < 16 := by omega
        have hxv : hex4 '0' '0' (hexDig (c.toNat / 16)) (hexDig (c.toNat % 16))
            = some c.toNat := by
          rw [hex4_00 _ _ hdiv hmod]
          congr 1
          omega
        have hofn : Char.ofNat c.toNat = c := Char.ofNat_toNat c
        have := psb_esc f _ _ _ _ _
          (decodeEscape_hex _ _ _ _ c.toNat _ (by omega) hxv) (ih f rest hlen)
        simpa [hofn] using this
      · exact psb_plain f c _ _ _ h1 h2 h8 (ih f rest hlen)

theorem escChar_len_pos (c : Char) : 1 ≤ (escChar c).length := by
  rw [escChar]
  split_ifs <;> simp

theorem escChars_len : ∀ cs : List Char, cs.length ≤ (escChars cs).length := by
  intro cs
  induction cs with
  | nil => simp [escChars]
  | cons c cs ih =>
    rw [escChars]
    have := escChar_len_pos c
    simp only [List.length_append, List.length_cons]
    omega

/-- A dumped string literal parses back to its source string, leaving the
remainder untouched. -/
theorem pv_dumpStr (f : Nat) (s : String) (X : List Char) :
    parseValue (f + 1) (dumpStr s ++ X) = some (Json.str s, X) := by
  have harr : dumpStr s ++ X = '"' :: (escChars s.data ++ '"' :: X) := by
    simp [dumpStr]
  rw [harr]
  have hbound : s.data.length < (escChars s.data ++ '"' :: X).length + 1 := by
    have := escChars_len s.data
    simp only [List.length_append, List.length_cons]
    omega
  have hpsb := psb_escChars s.data ((escChars s.data ++ '"' :: X).length + 1) X hbound
  simp only [parseValue, ite_true, hpsb]

/-! ## Parsing dumped objects -/

theorem skipWs_cons_of_not_ws (c : Char) (t : List Char) (h : isPyWs c = false) :
    skipWs (c :: t) = c :: t := by
  simp [skipWs, h]

theorem skipWs_space (t : List Char) : skipWs (' ' :: t) = skipWs t := by
  simp [skipWs, isPyWs]

theorem skipWs_jdump_str (s : String) (X : List Char) :
    skipWs (jdump (Json.str s) ++ X) = jdump (Json.str s) ++ X := by
  simp only [jdump, dumpStr, List.cons_append]
  exact skipWs_cons_of_not_ws _ _ (by decide)

theorem skipWs_jdump_obj (kvs : List (String × Json)) (X : List Char) :
    skipWs (jdump (Json.obj kvs) ++ X) = jdump (Json.obj kvs) ++ X := by
  simp only [jdump, List.cons_append]
  exact skipWs_cons_of_not_ws _ _ (by decide)

/-- One iteration of the member loop on a dumped member: scan the key, the
colon-space separator and the value, then dispatch on what follows. -/
theorem membersLoop_member (pv : List Char → Option (Json × List Char)) (f : Nat)
    (k : String) (j : Json) (TAIL : List Char) (acc : List (String × Json))
    (hj : ∀ X, pv (jdump j ++ X) = some (j, X))
    (hwj : ∀ X, skipWs (jdump j ++ X) = jdump j ++ X) :
    membersLoop pv (f + 1)
      ('"' :: (escChars k.data ++ ('"' :: (':' :: (' ' :: (jdump j ++ TAIL)))))) acc
    = (match skipWs TAIL with
       | [] => none
       | c3 :: r4 =>
         if c3 = ',' then membersLoop pv f (skipWs r4) (pyInsert acc k j)
         else if c3 = rbrace then some (Json.obj (pyInsert acc k j), r4)
         else none) := by
  have hb : k.data.length <
      (escChars k.data ++ '"' :: (':' :: (' ' :: (jdump j ++ TAIL)))).length + 1 := by
    have := escChars_len k.data
    simp only [List.length_append, List.length_cons]
    omega
  have hk := psb_escChars k.data _ (':' :: (' ' :: (jdump j ++ TAIL))) hb
  simp only [membersLoop, ite_true, hk]
  rw [skipWs_cons_of_not_ws ':' _ (by decide)]
  simp only [ite_true, string_eta]
  rw [skipWs_space, hwj, hj]

/-- The member loop consumes exactly a dumped two-member body. -/
theorem membersLoop_two (pv : List Char → Option (Json × List Char)) (g : Nat)
    (k₁ k₂ : String) (j₁ j₂ : Json) (hne : k₁ ≠ k₂)
    (h₁ : ∀ X, pv (jdump j₁ ++ X) = some (j₁, X))
    (h₂ : ∀ X, pv (jdump j₂ ++ X) = some (j₂, X))
    (hw₁ : ∀ X, skipWs (jdump j₁ ++ X) = jdump j₁ ++ X)
    (hw₂ : ∀ X, skipWs (jdump j₂ ++ X) = jdump j₂ ++ X)
    (X : List Char) :
    membersLoop pv (g + 1 + 1)
      ('"' :: (escChars k₁.data ++ ('"' :: (':' :: (' ' :: (jdump j₁ ++
        (',' :: (' ' :: ('"' :: (escChars k₂.data ++
          ('"' :: (':' :: (' ' :: (jdump j₂ ++ (rbrace :: X))))))))))))))) []
    = some (Json.obj [(k₁, j₁), (k₂, j₂)], X) := by
  rw [membersLoop_member pv (g + 1) k₁ j₁ _ [] h₁ hw₁]
  rw [skipWs_cons_of_not_ws ',' _ (by decide)]
  simp only [ite_true, reduceIte]
  rw [skipWs_space, skipWs_cons_of_not_ws '"' _ (by decide)]
  rw [membersLoop_member pv g k₂ j₂ _ (pyInsert [] k₁ j₁) h₂ hw₂]
  rw [skipWs_cons_of_not_ws rbrace _ (by decide)]
  have hc : (rbrace = ',') = False := by simp [rbrace]
  have hr : (rbrace = rbrace) = True := by simp
  simp only [hc, hr, ite_false, ite_true, if_false, if_true]
  simp [pyInsert, hne]

theorem len_esc_cons (s : String) (c : Char) (T : List Char) :
    (escChars s.data ++ c :: T).length = (escChars s.data).length + T.length + 1 := by
  simp only [List.length_append, List.length_cons]
  omega

/-- A dumped two-member object parses back to itself (given that its member
values do). -/
theorem parse_obj_two (f : Nat) (k₁ k₂ : String) (j₁ j₂ : Json) (hne : k₁ ≠ k₂)
    (h₁ : ∀ X, parseValue f (jdump j₁ ++ X) = some (j₁, X))
    (h₂ : ∀ X, parseValue f (jdump j₂ ++ X) = some (j₂, X))
    (hw₁ : ∀ X, skipWs (jdump j₁ ++ X) = jdump j₁ ++ X)
    (hw₂ : ∀ X, skipWs (jdump j₂ ++ X) = jdump j₂ ++ X)
    (X : List Char) :
    parseValue (f + 1) (jdump (Json.obj [(k₁, j₁), (k₂, j₂)]) ++ X)
      = some (Json.obj [(k₁, j₁), (k₂, j₂)], X) := by
  have hM : jdump (Json.obj [(k₁, j₁), (k₂, j₂)]) ++ X
      = lbrace :: ('"' :: (escChars k₁.data ++ ('"' :: (':' :: (' ' :: (jdump j₁ ++
        (',' :: (' ' :: ('"' :: (escChars k₂.data ++
          ('"' :: (':' :: (' ' :: (jdump j₂ ++ (rbrace :: X))))))))))))))) := by
    simp [jdump, jdumpObj, dumpStr, List.append_assoc]
  rw [hM]
  have hq : (lbrace = '"') = False := by simp [lbrace]
  have hb : (lbrace = lbrace) = True := by simp
  simp only [parseValue, hq, hb, ite_true, ite_false, if_false, if_true]
  rw [skipWs_cons_of_not_ws '"' _ (by decide)]
  have hqr : ('"' = rbrace) = False := by simp [rbrace]
  simp only [hqr, ite_false, if_false, List.length_cons, len_esc_cons]
  exact membersLoop_two (parseValue f) _ k₁ k₂ j₁ j₂ hne h₁ h₂ hw₁ hw₂ X

theorem pv_jdump_str (f : Nat) (s : String) (X : List Char) :
    parseValue (f + 1) (jdump (Json.str s) ++ X) = some (Json.str s, X) := by
  rw [show jdump (Json.str s) = dumpStr s from rfl]
  exact pv_dumpStr f s X

/-- The dumped Candid dictionary parses back to itself. -/
theorem pv_candidDict (f : Nat) (v : String) (X : List Char) :
    parseValue (f + 1 + 1) (jdump (CandidModel.marshalDict v) ++ X)
      = some (CandidModel.marshalDict v, X) := by
  exact parse_obj_two (f + 1) "t" "v" (Json.str "macaroon") (Json.str v) (by decide)
    (fun Y => pv_jdump_str f "macaroon" Y) (fun Y => pv_jdump_str f v Y)
    (fun Y => skipWs_jdump_str "macaroon" Y) (fun Y => skipWs_jdump_str v Y) X

theorem pv_u1Inner (f : Nat) (r d : String) (X : List Char) :
    parseValue (f + 1 + 1) (jdump (Json.obj [("r", Json.str r), ("d", Json.str d)]) ++ X)
      = some (Json.obj [("r", Json.str r), ("d", Json.str d)], X) := by
  exact parse_obj_two (f + 1) "r" "d" (Json.str r) (Json.str d) (by decide)
    (fun Y => pv_jdump_str f r Y) (fun Y => pv_jdump_str f d Y)
    (fun Y => skipWs_jdump_str r Y) (fun Y => skipWs_jdump_str d Y) X

/-- The dumped Ubuntu One dictionary parses back to itself. -/
theorem pv_u1Dict (f : Nat) (p : UbuntuOneMacaroons) (X : List Char) :
    parseValue (f + 1 + 1 + 1) (jdump (UbuntuOneModel.marshalDict p) ++ X)
      = some (UbuntuOneModel.marshalDict p, X) := by
  exact parse_obj_two (f + 1 + 1) "t" "v" (Json.str "u1-macaroon")
    (Json.obj [("r", Json.str p.root), ("d", Json.str p.discharge)]) (by decide)
    (fun Y => pv_jdump_str (f + 1) "u1-macaroon" Y)
    (fun Y => pv_u1Inner f p.root p.discharge Y)
    (fun Y => skipWs_jdump_str "u1-macaroon" Y)
    (fun Y => skipWs_jdump_obj _ Y) X

theorem obj_two_len_ex (k₁ k₂ : String) (j₁ j₂ : Json) :
    ∃ g, (jdump (Json.obj [(k₁, j₁), (k₂, j₂)])).length = g + 1 := by
  refine ⟨(jdump (Json.obj [(k₁, j₁), (k₂, j₂)])).length - 1, ?_⟩
  simp only [jdump, jdumpObj, dumpStr, List.length_cons, List.length_append]
  omega

/-- `json.loads` recovers the tagged Candid dictionary from its dump. -/
theorem json_loads_marshal_candid (v : String) :
    json_loads (marshal_candid_credentials v) = some (CandidModel.marshalDict v) := by
  rw [marshal_candid_credentials, json_dumps, json_loads, data_mk, CandidModel.marshalDict]
  have hsw := skipWs_jdump_obj [("t", Json.str "macaroon"), ("v", Json.str v)] []
  rw [List.append_nil] at hsw
  rw [hsw]
  obtain ⟨g, hg⟩ := obj_two_len_ex "t" "v" (Json.str "macaroon") (Json.str v)
  rw [hg]
  have := pv_candidDict g v []
  rw [List.append_nil, CandidModel.marshalDict] at this
  rw [this]
  simp [skipWs]

/-- `json.loads` recovers the tagged Ubuntu One dictionary from its dump. -/
theorem json_loads_marshal_u1 (p : UbuntuOneMacaroons) :
    json_loads (marshal_u1_credentials p) = some (UbuntuOneModel.marshalDict p) := by
  rw [marshal_u1_credentials, json_dumps, json_loads, data_mk, UbuntuOneModel.marshalDict]
  have hsw := skipWs_jdump_obj [("t", Json.str "u1-macaroon"),
    ("v", Json.obj [("r", Json.str p.root), ("d", Json.str p.discharge)])] []
  rw [List.append_nil] at hsw
  rw [hsw]
  obtain ⟨g, hg⟩ : ∃ g, (jdump (Json.obj [("t", Json.str "u1-macaroon"),
      ("v", Json.obj [("r", Json.str p.root), ("d", Json.str p.discharge)])])).length
      = g + 1 + 1 := by
    refine ⟨(jdump (Json.obj [("t", Json.str "u1-macaroon"),
      ("v", Json.obj [("r", Json.str p.root), ("d", Json.str p.discharge)])])).length - 2, ?_⟩
    simp only [jdump, jdumpObj, dumpStr, List.length_cons, List.length_append]
    omega
  rw [hg]
  have := pv_u1Dict g p []
  rw [List.append_nil, UbuntuOneModel.marshalDict] at this
  rw [this]
  simp [skipWs]

/-! ## Unmarshal branch computations -/

/-- Non-JSON input through the Candid codec: the raw string becomes the
payload of a fresh untagged dictionary and validates as-is. -/
theorem candid_loads_none (s : String) (h : json_loads s = none) :
    unmarshal_candid_credentials s = .ok s := by
  simp only [unmarshal_candid_credentials, h]
  simp [CandidModel.unmarshal, jlookup, str_validator]

/-- Non-JSON input through the Ubuntu One codec: a decode error is fatal. -/
theorem u1_loads_none (s : String) (h : json_loads s = none) :
    unmarshal_u1_credentials s
      = .error (.credentialsNotParseable "Expected valid Ubuntu One credentials") := by
  simp only [unmarshal_u1_credentials, h]

/-- A parsed object without the tag key through the Candid codec: again the
raw stored string becomes the payload and is returned unchanged. -/
theorem candid_untagged (s : String) (kvs : List (String × Json))
    (h : json_loads s = some (Json.obj kvs))
    (hnot : (kvs.any fun kv => kv.1 = "t") = false) :
    unmarshal_candid_credentials s = .ok s := by
  simp only [unmarshal_candid_credentials, h, py_contains_t]
  rw [hnot]
  simp [CandidModel.unmarshal, jlookup, str_validator]

/-- On a mapping, `CandidModel.unmarshal` never raises `TypeError`. -/
theorem candid_unmarshal_obj_ne (kvs : List (String × Json)) :
    CandidModel.unmarshal (Json.obj kvs) ≠ Except.error ModelErr.typeError := by
  simp only [CandidModel.unmarshal]
  repeat' split
  all_goals simp

/-- On a mapping, `UbuntuOneModel.unmarshal` never raises `TypeError`. -/
theorem u1_unmarshal_obj_ne (kvs : List (String × Json)) :
    UbuntuOneModel.unmarshal (Json.obj kvs) ≠ Except.error ModelErr.typeError := by
  simp only [UbuntuOneModel.unmarshal]
  repeat' split
  all_goals simp

/-- When the Candid codec hands a mapping to the model, the outcome is a
credential or a `CredentialsNotParseable`. -/
theorem candid_result_of_obj (s : String) (kvs : List (String × Json))
    (hform : unmarshal_candid_credentials s =
      (match CandidModel.unmarshal (Json.obj kvs) with
       | .ok v => .ok v
       | .error .validationError =>
         .error (.credentialsNotParseable "Expected valid Candid credentials")
       | .error .typeError => .error .typeError)) :
    (∃ v, unmarshal_candid_credentials s = Except.ok v) ∨
      (∃ m, unmarshal_candid_credentials s = Except.error (PyErr.credentialsNotParseable m)) := by
  rw [hform]
  cases hcm : CandidModel.unmarshal (Json.obj kvs) with
  | ok v => exact Or.inl ⟨v, rfl⟩
  | error e =>
    cases e with
    | validationError => exact Or.inr ⟨_, rfl⟩
    | typeError => exact absurd hcm (candid_unmarshal_obj_ne kvs)

/-- When the Ubuntu One codec hands a mapping to the model, the outcome is a
credential pair or a `CredentialsNotParseable`. -/
theorem u1_result_of_obj (s : String) (kvs : List (String × Json))
    (hform : unmarshal_u1_credentials s =
      (match UbuntuOneModel.unmarshal (Json.obj kvs) with
       | .ok v => .ok v
       | .error .validationError =>
         .error (.credentialsNotParseable "Expected valid Ubuntu One credentials")
       | .error .typeError => .error .typeError)) :
    (∃ p, unmarshal_u1_credentials s = Except.ok p) ∨
      (∃ m, unmarshal_u1_credentials s = Except.error (PyErr.credentialsNotParseable m)) := by
  rw [hform]
  cases hcm : UbuntuOneModel.unmarshal (Json.obj kvs) with
  | ok v => exact Or.inl ⟨v, rfl⟩
  | error e =>
    cases e with
    | validationError => exact Or.inr ⟨_, rfl⟩
    | typeError => exact absurd hcm (u1_unmarshal_obj_ne kvs)

/-! ## Claim theorems -/

/-- C1, counterexample: on the stored string holding exactly the JSON object
with the single member `v` mapped to `abc123`, `unmarshal_candid_credentials`
returns the raw stored string itself — not the `abc123` the claim predicts
(the source's untagged branch runs `data["v"] = marshalled_creds`, the raw
string, not the parsed payload). -/
theorem candid_untagged_dict_counterexample :
    unmarshal_candid_credentials "\x7b\"v\": \"abc123\"\x7d"
      = Except.ok "\x7b\"v\": \"abc123\"\x7d" ∧
    ("\x7b\"v\": \"abc123\"\x7d" : String) ≠ "abc123" :=
  ⟨rfl, by decide⟩

/-- C1, amended: for every stored string that parses as a JSON object with no
`t` key, the Candid codec treats the entire raw stored string (not the parsed
object's contents) as the payload of an implicit Candid envelope and returns
the stored string unchanged. -/
theorem candid_untagged_dict_returns_raw (s : String) (kvs : List (String × Json))
    (hparse : json_loads s = some (Json.obj kvs))
    (hnotag : (kvs.any fun kv => kv.1 = "t") = false) :
    unmarshal_candid_credentials s = Except.ok s :=
  candid_untagged s kvs hparse hnotag

/-- C1, witness: the amended statement evaluated on the stored string holding
the untagged object with `v` mapped to `abc123`. -/
theorem candid_untagged_dict_returns_raw_witness :
    json_loads "\x7b\"v\": \"abc123\"\x7d" = some (Json.obj [("v", Json.str "abc123")]) ∧
    unmarshal_candid_credentials "\x7b\"v\": \"abc123\"\x7d"
      = Except.ok "\x7b\"v\": \"abc123\"\x7d" :=
  ⟨rfl, candid_untagged_dict_returns_raw _ [("v", Json.str "abc123")] rfl (by decide)⟩

/-- C2: the claim is right and the code is wrong.  `with_discharge` runs
pydantic v1 `copy` with the update key `d`; `copy` merges update keys into
the field-name-keyed instance dictionary without alias translation, so on
the pair with root `R` and discharge `D1`, requesting discharge `D2` yields
an object whose `discharge` attribute is still `D1` (the new value sits in a
stray `d` entry), contradicting the method's own docstring ("a copy of this
UbuntuOneMacaroons with a different discharge macaroon") and the claim. -/
theorem with_discharge_keeps_discharge_field :
    pyAttr ((UbuntuOneMacaroons.mk "R" "D1").with_discharge_dict "D2") "discharge"
      = some "D1" ∧
    pyAttr ((UbuntuOneMacaroons.mk "R" "D1").with_discharge_dict "D2") "d" = some "D2" ∧
    (UbuntuOneMacaroons.mk "R" "D1").with_discharge_dict "D2"
      ≠ (UbuntuOneMacaroons.mk "R" "D2").instanceDict := by
  refine ⟨rfl, rfl, ?_⟩
  decide

/-- C3, counterexample: the input `3` parses as JSON but is not a container,
so Python's `"t" in creds` membership test raises `TypeError` — an error kind
other than `CredentialsNotParseable` — in both codecs, refuting the claim
that no other error kind is ever signaled. -/
theorem unmarshal_int_input_type_error :
    unmarshal_candid_credentials "3" = Except.error PyErr.typeError ∧
    unmarshal_u1_credentials "3" = Except.error PyErr.typeError ∧
    ∀ msg, PyErr.typeError ≠ PyErr.credentialsNotParseable msg :=
  ⟨rfl, rfl, fun _ h => PyErr.noConfusion h⟩

/-- C3, amended: for every input string that does not parse as JSON or parses
as a JSON object, each codec either returns a credential value or signals
`CredentialsNotParseable`, and every such input that is not rejected is
successfully normalized; inputs parsing to non-object JSON values are the
exception the counterexample exhibits. -/
theorem unmarshal_error_taxonomy (s : String)
    (h : json_loads s = none ∨ ∃ kvs, json_loads s = some (Json.obj kvs)) :
    ((∃ v, unmarshal_candid_credentials s = Except.ok v) ∨
      (∃ m, unmarshal_candid_credentials s = Except.error (PyErr.credentialsNotParseable m))) ∧
    ((∃ p, unmarshal_u1_credentials s = Except.ok p) ∨
      (∃ m, unmarshal_u1_credentials s = Except.error (PyErr.credentialsNotParseable m))) := by
  rcases h with h | ⟨kvs, h⟩
  · exact ⟨Or.inl ⟨s, candid_loads_none s h⟩,
      Or.inr ⟨"Expected valid Ubuntu One credentials", u1_loads_none s h⟩⟩
  · constructor
    · cases hAny : (kvs.any fun kv => kv.1 = "t") with
      | false => exact Or.inl ⟨s, candid_untagged s kvs h hAny⟩
      | true =>
        refine candid_result_of_obj s kvs ?_
        simp only [unmarshal_candid_credentials, h, py_contains_t]
        rw [hAny]
    · cases hAny : (kvs.any fun kv => kv.1 = "t") with
      | false =>
        refine u1_result_of_obj s [("v", Json.obj kvs)] ?_
        simp only [unmarshal_u1_credentials, h, py_contains_t]
        rw [hAny]
      | true =>
        refine u1_result_of_obj s kvs ?_
        simp only [unmarshal_u1_credentials, h, py_contains_t]
        rw [hAny]

/-- C3, witness: the amended statement evaluated on a stored JSON object
whose tag is the number `7`, which both codecs reject as
`CredentialsNotParseable`. -/
theorem unmarshal_error_taxonomy_witness :
    (json_loads "\x7b\"t\": 7\x7d" = none ∨
      ∃ kvs, json_loads "\x7b\"t\": 7\x7d" = some (Json.obj kvs)) ∧
    (((∃ v, unmarshal_candid_credentials "\x7b\"t\": 7\x7d" = Except.ok v) ∨
      (∃ m, unmarshal_candid_credentials "\x7b\"t\": 7\x7d"
        = Except.error (PyErr.credentialsNotParseable m))) ∧
    ((∃ p, unmarshal_u1_credentials "\x7b\"t\": 7\x7d" = Except.ok p) ∨
      (∃ m, unmarshal_u1_credentials "\x7b\"t\": 7\x7d"
        = Except.error (PyErr.credentialsNotParseable m)))) :=
  ⟨Or.inr ⟨[("t", Json.num "7")], rfl⟩,
    unmarshal_error_taxonomy _ (Or.inr ⟨[("t", Json.num "7")], rfl⟩)⟩

/-- C4: for every Candid credential string, unmarshalling the marshalled form
returns the original string. -/
theorem candid_roundtrip (v : String) :
    unmarshal_candid_credentials (marshal_candid_credentials v) = Except.ok v := by
  simp only [unmarshal_candid_credentials, json_loads_marshal_candid, CandidModel.marshalDict,
    py_contains_t, CandidModel.unmarshal, jlookup, str_validator, List.any]
  simp [jlookup, str_validator]

/-- C5: for every Ubuntu One pair, unmarshalling the marshalled form returns
the original pair. -/
theorem u1_roundtrip (p : UbuntuOneMacaroons) :
    unmarshal_u1_credentials (marshal_u1_credentials p) = Except.ok p := by
  simp only [unmarshal_u1_credentials, json_loads_marshal_u1, UbuntuOneModel.marshalDict,
    py_contains_t, UbuntuOneModel.unmarshal, u1macaroons_validator, jlookup, str_validator,
    List.any]
  simp [jlookup, str_validator, u1macaroons_validator]

/-- C6: feeding a marshalled Ubuntu One pair to the Candid codec fails with
`CredentialsNotParseable` carrying the message that names the expected
credential type. -/
theorem candid_rejects_u1_marshal (p : UbuntuOneMacaroons) :
    unmarshal_candid_credentials (marshal_u1_credentials p)
      = Except.error (PyErr.credentialsNotParseable "Expected valid Candid credentials") := by
  simp only [unmarshal_candid_credentials, json_loads_marshal_u1, UbuntuOneModel.marshalDict,
    py_contains_t, CandidModel.unmarshal, jlookup, str_validator, List.any]
  simp [jlookup, str_validator]

/-- C7: every input string that does not parse as JSON makes the Ubuntu One
codec fail with `CredentialsNotParseable`; the decode failure is
unconditionally fatal. -/
theorem u1_non_json_fails (s : String) (h : json_loads s = none) :
    unmarshal_u1_credentials s
      = Except.error (PyErr.credentialsNotParseable "Expected valid Ubuntu One credentials") :=
  u1_loads_none s h

/-- C7, witness: the statement evaluated on the input `not json`. -/
theorem u1_non_json_fails_witness :
    json_loads "not json" = none ∧
    unmarshal_u1_credentials "not json"
      = Except.error (PyErr.credentialsNotParseable "Expected valid Ubuntu One credentials") :=
  ⟨rfl, u1_non_json_fails "not json" rfl⟩

/-- C8: every input string that does not parse as JSON makes the Candid codec
succeed with the raw input string itself as the payload, with no wrapping. -/
theorem candid_non_json_returns_raw (s : String) (h : json_loads s = none) :
    unmarshal_candid_credentials s = Except.ok s :=
  candid_loads_none s h

/-- C8, witness: the statement evaluated on the input `abc123`. -/
theorem candid_non_json_returns_raw_witness :
    json_loads "abc123" = none ∧
    unmarshal_candid_credentials "abc123" = Except.ok "abc123" :=
  ⟨rfl, candid_non_json_returns_raw "abc123" rfl⟩

/-- C9: marshalling the Candid credential `m` produces exactly the tagged
JSON object with the `t` field first (value `macaroon`) and the `v` field
second (the input), in `json.dumps`'s default spacing, and unmarshalling
that exact string returns `m`. -/
theorem marshal_candid_wire_format :
    marshal_candid_credentials "m" = "\x7b\"t\": \"macaroon\", \"v\": \"m\"\x7d" ∧
    unmarshal_candid_credentials "\x7b\"t\": \"macaroon\", \"v\": \"m\"\x7d" = Except.ok "m" :=
  ⟨rfl, rfl⟩

/-- C10: feeding a marshalled Candid credential to the Ubuntu One codec fails
with `CredentialsNotParseable` rather than returning a pair. -/
theorem u1_rejects_candid_marshal (v : String) :
    unmarshal_u1_credentials (marshal_candid_credentials v)
      = Except.error (PyErr.credentialsNotParseable "Expected valid Ubuntu One credentials") := by
  simp only [unmarshal_u1_credentials, json_loads_marshal_candid, CandidModel.marshalDict,
    py_contains_t, UbuntuOneModel.unmarshal, u1macaroons_validator, jlookup, str_validator,
    List.any]
  simp [jlookup, str_validator, u1macaroons_validator]
